import Mathlib

/-!
Shallow embedding of the session & streaming state synchronization engine of
the jisi-code client.

The state container (`Store`, `handleServerMessage`, the local intents) is
translated from src/frontend/app/stores/session-store.ts; the socket `send`
and the session-creation handler are translated from
src/frontend/app/hooks/use-websocket.ts and
src/frontend/app/components/sidebar.tsx.

JavaScript records (string-keyed objects) are modelled as association lists
with first-match lookup; `undefined`/`null` become `Option`; JavaScript
truthiness checks on optional strings and booleans are made explicit.
JSON payloads typed `unknown` in the source are abstracted as opaque strings.
The module-level message-id counter and the ambient clock (`Date.now()`)
are modelled as explicit `msgCounter`/`now` fields threaded through the store.
-/

namespace JisiCode

/-- JavaScript truthiness of an optional string: `undefined` and `""` are falsy. -/
def truthyStr : Option String → Bool
  | some s => s ≠ ""
  | none => false

/-- JavaScript truthiness of an optional boolean: `undefined` and `false` are falsy. -/
def truthyBool : Option Bool → Bool
  | some b => b
  | none => false

/-- ModelConfig from types/websocket.ts: both fields optional. -/
structure ModelConfig where
  model : Option String
  reasoning_effort : Option String
  deriving Repr, DecidableEq

/-- normalizeModelConfig from session-store.ts: drops falsy fields; a config
with no remaining field normalizes to absence. -/
def normalizeModelConfig : Option ModelConfig → Option ModelConfig
  | none => none
  | some c =>
    let m := if truthyStr c.model then c.model else none
    let r := if truthyStr c.reasoning_effort then c.reasoning_effort else none
    if m.isSome || r.isSome then some { model := m, reasoning_effort := r } else none

/-- AgentInfo from types/websocket.ts. -/
structure AgentInfo where
  id : String
  display_name : String
  agent_type : String
  enabled : Bool
  deriving Repr, DecidableEq

/-- SessionInfo from types/websocket.ts. -/
structure SessionInfo where
  session_id : String
  agent_name : String
  status : String
  model_config : Option ModelConfig
  deriving Repr, DecidableEq

/-- TokenUsage from types/websocket.ts (named numeric fields). -/
structure TokenUsage where
  input_tokens : Option Nat
  output_tokens : Option Nat
  total_tokens : Option Nat
  remaining_tokens : Option Nat
  context_window : Option Nat
  deriving Repr, DecidableEq

/-- MessageRole from types/websocket.ts. -/
inductive MessageRole
  | user
  | assistant
  | system
  deriving Repr, DecidableEq

/-- ToolCallInfo from types/websocket.ts; `args : unknown` abstracted as a string. -/
structure ToolCallInfo where
  tool_name : String
  args : String
  status : Option String
  output : Option String
  deriving Repr, DecidableEq

/-- FileChangeInfo from types/websocket.ts. -/
structure FileChangeInfo where
  path : String
  action : String
  content : Option String
  diff : Option String
  deriving Repr, DecidableEq

/-- ChatMessage from types/websocket.ts. -/
structure ChatMessage where
  id : String
  role : MessageRole
  content : String
  timestamp : Nat
  toolCall : Option ToolCallInfo
  fileChange : Option FileChangeInfo
  thinking : Option String
  tokenUsage : Option TokenUsage
  isStreaming : Option Bool
  deriving Repr, DecidableEq

/-- SessionMetadata from session-store.ts. -/
structure SessionMetadata where
  tokenUsage : Option TokenUsage
  modelConfig : Option ModelConfig
  deriving Repr, DecidableEq

/-- ConnectionStatus from types/websocket.ts. -/
inductive ConnectionStatus
  | disconnected
  | connecting
  | connected
  | error
  deriving Repr, DecidableEq

/-- ServerMessage tagged union from types/websocket.ts. -/
inductive ServerMessage
  | session_created (session_id agent_name : String) (model_config : Option ModelConfig)
  | prompt_accepted (session_id : String)
  | content_delta (session_id content : String)
  | tool_call (session_id tool_name args : String)
  | file_change (session_id path action : String) (content diff : Option String)
  | token_usage (session_id : String) (usage : TokenUsage)
  | thinking (session_id content : String)
  | session_closed (session_id : String)
  | agent_list (agents : List AgentInfo)
  | session_list (sessions : List SessionInfo)
  | error (message : String)
  deriving Repr, DecidableEq

/-- ClientMessage tagged union from types/websocket.ts. -/
inductive ClientMessage
  | create_session (agent_id project_path : String) (model_config : Option ModelConfig)
  | send_prompt (session_id prompt : String)
  | close_session (session_id : String)
  | list_agents
  | list_sessions
  deriving Repr, DecidableEq

/-- Lookup in a string-keyed record modelled as an association list (first match). -/
def recordGet {α : Type} : List (String × α) → String → Option α
  | [], _ => none
  | (k, v) :: rest, key => if k = key then some v else recordGet rest key

/-- Assignment in a string-keyed record: update the existing key in place, else append. -/
def recordSet {α : Type} : List (String × α) → String → α → List (String × α)
  | [], key, v => [(key, v)]
  | (k, w) :: rest, key, v =>
    if k = key then (k, v) :: rest else (k, w) :: recordSet rest key v

/-- The JavaScript `delete record[key]` operation. -/
def recordDelete {α : Type} : List (String × α) → String → List (String × α)
  | [], _ => []
  | (k, w) :: rest, key =>
    if k = key then recordDelete rest key else (k, w) :: recordDelete rest key

/-- The in-memory store state of session-store.ts, plus the explicit
message-id counter and clock. -/
structure Store where
  connectionStatus : ConnectionStatus
  agents : List AgentInfo
  sessions : List SessionInfo
  activeSessionId : Option String
  creatingSessionAgentId : Option String
  lastError : Option String
  messages : List (String × List ChatMessage)
  sessionMetadata : List (String × SessionMetadata)
  agentModelConfigs : List (String × ModelConfig)
  projectPath : String
  msgCounter : Nat
  now : Nat
  deriving Repr, DecidableEq

/-- nextMessageId from session-store.ts: increments the counter and builds the id. -/
def nextMessageId (now counter : Nat) : String :=
  "msg-" ++ toString now ++ "-" ++ toString (counter + 1)

/-- The streaming-termination step shared by the tool_call and error arms:
if the last message exists and its isStreaming flag is truthy, set it to false. -/
def closeStreaming (l : List ChatMessage) : List ChatMessage :=
  match l.getLast? with
  | some m =>
    if truthyBool m.isStreaming then l.dropLast ++ [{ m with isStreaming := some false }]
    else l
  | none => l

/-- The prompt_accepted arm's session lookup: set the first matching session's
status to Processing. -/
def setStatusProcessing (sid : String) : List SessionInfo → List SessionInfo
  | [] => []
  | s :: rest =>
    if s.session_id = sid then { s with status := "Processing" } :: rest
    else s :: setStatusProcessing sid rest

/-- The findIndex-plus-splice removal of the first session with the given id. -/
def eraseFirstSession (sid : String) : List SessionInfo → List SessionInfo
  | [] => []
  | s :: rest =>
    if s.session_id = sid then rest
    else s :: eraseFirstSession sid rest

/-- The session_list arm's per-session sync body from session-store.ts:
ensure message/metadata slots exist, then store or clear the normalized
model config, propagating a concrete one to the agent default. -/
def syncListedSession (st : Store) (session : SessionInfo) : Store :=
  let messages :=
    match recordGet st.messages session.session_id with
    | some _ => st.messages
    | none => recordSet st.messages session.session_id []
  let slot :=
    match recordGet st.sessionMetadata session.session_id with
    | some md => md
    | none => { tokenUsage := none, modelConfig := none }
  match normalizeModelConfig session.model_config with
  | some c =>
    { st with
      messages := messages,
      sessionMetadata :=
        recordSet st.sessionMetadata session.session_id { slot with modelConfig := some c },
      agentModelConfigs := recordSet st.agentModelConfigs session.agent_name c }
  | none =>
    { st with
      messages := messages,
      sessionMetadata :=
        recordSet st.sessionMetadata session.session_id { slot with modelConfig := none } }

/-- handleServerMessage from session-store.ts: the central transition table,
one arm per inbound event tag. -/
def handleServerMessage (message : ServerMessage) (s : Store) : Store :=
  match message with
  | .session_created sid an mc =>
    let messages :=
      match recordGet s.messages sid with
      | some _ => s.messages
      | none => recordSet s.messages sid []
    let createdModelConfig := normalizeModelConfig mc
    { s with
      creatingSessionAgentId := none,
      lastError := none,
      messages := messages,
      sessionMetadata :=
        recordSet s.sessionMetadata sid
          { tokenUsage := none, modelConfig := createdModelConfig },
      sessions :=
        s.sessions ++ [{ session_id := sid, agent_name := an, status := "Ready",
                         model_config := createdModelConfig }],
      agentModelConfigs :=
        match createdModelConfig with
        | some c => recordSet s.agentModelConfigs an c
        | none => s.agentModelConfigs,
      activeSessionId := some sid }
  | .prompt_accepted sid =>
    { s with sessions := setStatusProcessing sid s.sessions }
  | .content_delta sid c =>
    match recordGet s.messages sid with
    | none => s
    | some list =>
      match list.getLast? with
      | some last =>
        if last.role = MessageRole.assistant ∧ last.toolCall = none ∧ last.fileChange = none then
          { s with
            messages :=
              recordSet s.messages sid
                (list.dropLast ++
                  [{ last with content := last.content ++ c, isStreaming := some true }]) }
        else
          { s with
            messages :=
              recordSet s.messages sid
                (list ++ [{ id := nextMessageId s.now s.msgCounter,
                            role := MessageRole.assistant, content := c, timestamp := s.now,
                            toolCall := none, fileChange := none, thinking := none,
                            tokenUsage := none, isStreaming := some true }]),
            msgCounter := s.msgCounter + 1 }
      | none =>
        { s with
          messages :=
            recordSet s.messages sid
              (list ++ [{ id := nextMessageId s.now s.msgCounter,
                          role := MessageRole.assistant, content := c, timestamp := s.now,
                          toolCall := none, fileChange := none, thinking := none,
                          tokenUsage := none, isStreaming := some true }]),
          msgCounter := s.msgCounter + 1 }
  | .tool_call sid tn args =>
    match recordGet s.messages sid with
    | none => s
    | some list =>
      { s with
        messages :=
          recordSet s.messages sid
            (closeStreaming list ++
              [{ id := nextMessageId s.now s.msgCounter,
                 role := MessageRole.assistant, content := "", timestamp := s.now,
                 toolCall := some { tool_name := tn, args := args,
                                    status := some "running", output := none },
                 fileChange := none, thinking := none, tokenUsage := none,
                 isStreaming := none }]),
        msgCounter := s.msgCounter + 1 }
  | .file_change sid path action content diff =>
    match recordGet s.messages sid with
    | none => s
    | some list =>
      { s with
        messages :=
          recordSet s.messages sid
            (list ++
              [{ id := nextMessageId s.now s.msgCounter,
                 role := MessageRole.assistant, content := "", timestamp := s.now,
                 toolCall := none,
                 fileChange := some { path := path, action := action,
                                      content := content, diff := diff },
                 thinking := none, tokenUsage := none, isStreaming := none }]),
        msgCounter := s.msgCounter + 1 }
  | .token_usage sid usage =>
    let slot :=
      match recordGet s.sessionMetadata sid with
      | some md => md
      | none => { tokenUsage := none, modelConfig := none }
    { s with
      sessionMetadata :=
        recordSet s.sessionMetadata sid { slot with tokenUsage := some usage } }
  | .thinking sid c =>
    match recordGet s.messages sid with
    | none => s
    | some list =>
      match list.getLast? with
      | some last =>
        if truthyStr last.thinking then
          { s with
            messages :=
              recordSet s.messages sid
                (list.dropLast ++
                  [{ last with thinking := some ((last.thinking.getD "") ++ c) }]) }
        else
          { s with
            messages :=
              recordSet s.messages sid
                (list ++ [{ id := nextMessageId s.now s.msgCounter,
                            role := MessageRole.assistant, content := "", timestamp := s.now,
                            toolCall := none, fileChange := none, thinking := some c,
                            tokenUsage := none, isStreaming := none }]),
            msgCounter := s.msgCounter + 1 }
      | none =>
        { s with
          messages :=
            recordSet s.messages sid
              (list ++ [{ id := nextMessageId s.now s.msgCounter,
                          role := MessageRole.assistant, content := "", timestamp := s.now,
                          toolCall := none, fileChange := none, thinking := some c,
                          tokenUsage := none, isStreaming := none }]),
          msgCounter := s.msgCounter + 1 }
  | .session_closed sid =>
    let sessions := eraseFirstSession sid s.sessions
    let messages := recordDelete s.messages sid
    let sessionMetadata := recordDelete s.sessionMetadata sid
    let activeSessionId :=
      if s.activeSessionId = some sid then (sessions.head?).map (fun x => x.session_id)
      else s.activeSessionId
    { s with sessions := sessions, messages := messages,
             sessionMetadata := sessionMetadata, activeSessionId := activeSessionId }
  | .agent_list agents =>
    { s with agents := agents }
  | .session_list sessions =>
    sessions.foldl syncListedSession { s with sessions := sessions }
  | .error msg =>
    let s1 := { s with creatingSessionAgentId := none, lastError := some msg }
    match s1.activeSessionId with
    | none => s1
    | some aid =>
      let l0 :=
        match recordGet s1.messages aid with
        | some l => closeStreaming l
        | none => []
      { s1 with
        messages :=
          recordSet s1.messages aid
            (l0 ++ [{ id := nextMessageId s1.now s1.msgCounter,
                      role := MessageRole.system, content := msg, timestamp := s1.now,
                      toolCall := none, fileChange := none, thinking := none,
                      tokenUsage := none, isStreaming := none }]),
        msgCounter := s1.msgCounter + 1 }

/-- removeSession local intent from session-store.ts. -/
def removeSession (sid : String) (s : Store) : Store :=
  let sessions := eraseFirstSession sid s.sessions
  let messages := recordDelete s.messages sid
  let sessionMetadata := recordDelete s.sessionMetadata sid
  let activeSessionId :=
    if s.activeSessionId = some sid then (sessions.head?).map (fun x => x.session_id)
    else s.activeSessionId
  { s with sessions := sessions, messages := messages,
           sessionMetadata := sessionMetadata, activeSessionId := activeSessionId }

/-- The session_list arm's session_id update of the first matching list entry,
used by setSessionModelConfig. -/
def setFirstSessionConfig (sid : String) (mc : Option ModelConfig) :
    List SessionInfo → List SessionInfo
  | [] => []
  | s :: rest =>
    if s.session_id = sid then { s with model_config := mc } :: rest
    else s :: setFirstSessionConfig sid mc rest

/-- setSessionModelConfig local intent from session-store.ts: normalizes the
config, stores or clears it on the session's metadata slot, and mirrors it on
the session-list entry. It does not touch agentModelConfigs. -/
def setSessionModelConfig (sessionId : String) (config : Option ModelConfig)
    (s : Store) : Store :=
  let normalized := normalizeModelConfig config
  let slot :=
    match recordGet s.sessionMetadata sessionId with
    | some md => md
    | none => { tokenUsage := none, modelConfig := none }
  { s with
    sessionMetadata :=
      recordSet s.sessionMetadata sessionId { slot with modelConfig := normalized },
    sessions := setFirstSessionConfig sessionId normalized s.sessions }

/-- The socket ready states of the WebSocket API. -/
inductive ReadyState
  | CONNECTING
  | OPEN
  | CLOSING
  | CLOSED
  deriving Repr, DecidableEq

/-- Outcome of one call to the hook's send: whether the frame was written to
the socket, and the value returned to the caller (none models undefined). -/
structure SendCall where
  transmitted : Bool
  returned : Option Bool
  deriving Repr, DecidableEq

/-- send from use-websocket.ts: transmits only when the socket is OPEN; in
every case the function body ends without a return value (undefined). -/
def send (socket : Option ReadyState) (message : ClientMessage) : SendCall :=
  if socket = some ReadyState.OPEN then { transmitted := true, returned := none }
  else { transmitted := false, returned := none }

/-- handleCreateSession from sidebar.tsx: clears the last error, records the
project path, raises the pending-creation flag, dispatches create_session, and
treats a falsy send return as failure (clearing the flag and surfacing an
error). Returns the resulting store and whether the frame was transmitted. -/
def handleCreateSession (socket : Option ReadyState) (agentId localProjectPath : String)
    (s : Store) : Store × Bool :=
  let s1 := { s with lastError := none, projectPath := localProjectPath,
                     creatingSessionAgentId := some agentId }
  let modelConfig := normalizeModelConfig (recordGet s1.agentModelConfigs agentId)
  let call :=
    send socket
      (ClientMessage.create_session agentId
        (if localProjectPath ≠ "" then localProjectPath else ".") modelConfig)
  let sent := truthyBool call.returned
  let s2 :=
    if sent then s1
    else { s1 with creatingSessionAgentId := none,
                   lastError := some "WebSocket is disconnected. Reconnect and try again." }
  (s2, call.transmitted)

/-- The session-creation timeout callback from sidebar.tsx: when the
pending-creation flag is still truthy at the deadline, clear it and record
the local timeout error. -/
def fireCreateTimeout (s : Store) : Store :=
  if truthyStr s.creatingSessionAgentId then
    { s with creatingSessionAgentId := none,
             lastError := some "Create session timed out. Please retry." }
  else s

/-- Fold a list of server messages through the transition table in order. -/
def applyAll (msgs : List ServerMessage) (s : Store) : Store :=
  msgs.foldl (fun st m => handleServerMessage m st) s

/-- A run of content_delta events for one session. -/
def deltasForSession (sid : String) (cs : List String) : List ServerMessage :=
  cs.map (ServerMessage.content_delta sid)

/-- Concatenation of delta payloads in arrival order. -/
def concatAll : List String → String
  | [] => ""
  | c :: rest => c ++ concatAll rest

/-- Invariant 2 of the spec as a boolean check: activeSessionId is null or
names some entry of the session list. -/
def activeOk (s : Store) : Bool :=
  match s.activeSessionId with
  | none => true
  | some sid => s.sessions.any (fun x => x.session_id = sid)

/-- Discriminator for the session_list tag. -/
def isSessionListMsg : ServerMessage → Bool
  | .session_list _ => true
  | _ => false

/-- The store's initial state. -/
def emptyStore : Store :=
  { connectionStatus := ConnectionStatus.disconnected, agents := [], sessions := [],
    activeSessionId := none, creatingSessionAgentId := none, lastError := none,
    messages := [], sessionMetadata := [], agentModelConfigs := [],
    projectPath := ".", msgCounter := 0, now := 0 }

/-- A user message used by concrete scenarios. -/
def samplePlainMsg : ChatMessage :=
  { id := "msg-0-1", role := MessageRole.user, content := "hi", timestamp := 0,
    toolCall := none, fileChange := none, thinking := none, tokenUsage := none,
    isStreaming := none }

/-- A streaming assistant message used by concrete scenarios. -/
def sampleStreamingMsg : ChatMessage :=
  { id := "msg-0-2", role := MessageRole.assistant, content := "Hel", timestamp := 0,
    toolCall := none, fileChange := none, thinking := none, tokenUsage := none,
    isStreaming := some true }

/-- A store with one known session whose message sequence is empty. -/
def emptySeqStore : Store :=
  { emptyStore with
    sessions := [{ session_id := "s1", agent_name := "agent-a", status := "Ready",
                   model_config := none }],
    messages := [("s1", [])],
    sessionMetadata := [("s1", { tokenUsage := none, modelConfig := none })] }

/-- A store whose session s1 has a user message followed by a streaming
assistant message. -/
def streamingStore : Store :=
  { emptySeqStore with messages := [("s1", [samplePlainMsg, sampleStreamingMsg])] }

/-- A store with one session in the list and that session active. -/
def activeStore : Store :=
  { emptySeqStore with activeSessionId := some "s1" }

/-- A store with a pending session-creation attempt. -/
def pendingStore : Store :=
  { emptyStore with creatingSessionAgentId := some "agent-1" }

/-- A concrete model configuration that survives normalization. -/
def sampleConfig : ModelConfig := { model := some "model-x", reasoning_effort := none }

/-- A concrete token usage value. -/
def sampleUsage : TokenUsage :=
  { input_tokens := some 10, output_tokens := some 5, total_tokens := some 15,
    remaining_tokens := none, context_window := some 200000 }

/-- Record lookup after setting the same key yields the written value. -/
theorem recordGet_recordSet_self {α : Type} (m : List (String × α)) (k : String) (v : α) :
    recordGet (recordSet m k v) k = some v := by
  induction m with
  | nil => simp [recordGet, recordSet]
  | cons p rest ih =>
    obtain ⟨k0, w⟩ := p
    by_cases h : k0 = k
    · simp [recordSet, h, recordGet]
    · simp [recordSet, h, recordGet, ih]

/-- Record lookup at a different key is unaffected by a set. -/
theorem recordGet_recordSet_ne {α : Type} (m : List (String × α)) (k k2 : String) (v : α)
    (h : k2 ≠ k) : recordGet (recordSet m k v) k2 = recordGet m k2 := by
  induction m with
  | nil =>
    simp only [recordSet, recordGet]
    rw [if_neg (fun h2 => h h2.symm)]
  | cons p rest ih =>
    obtain ⟨k0, w⟩ := p
    by_cases hk : k0 = k
    · subst hk
      simp only [recordSet, if_pos rfl, recordGet]
      rw [if_neg (fun h2 => h h2.symm), if_neg (fun h2 => h h2.symm)]
    · simp only [recordSet, if_neg hk, recordGet]
      by_cases h2 : k0 = k2
      · rw [if_pos h2, if_pos h2]
      · rw [if_neg h2, if_neg h2]
        exact ih

/-- closeStreaming preserves list length. -/
theorem closeStreaming_length (l : List ChatMessage) :
    (closeStreaming l).length = l.length := by
  unfold closeStreaming
  split
  · rename_i m heq
    split
    · rename_i hs
      have hne : l ≠ [] := by
        intro h0
        rw [h0] at heq
        simp at heq
      have hlen : 0 < l.length := List.length_pos.mpr hne
      simp [List.length_dropLast]
      omega
    · rfl
  · rfl

/-- closeStreaming only adjusts the last entry: the strict prefix is unchanged. -/
theorem closeStreaming_take (l : List ChatMessage) :
    (closeStreaming l).take (l.length - 1) = l.take (l.length - 1) := by
  unfold closeStreaming
  split
  · rename_i m heq
    split
    · rename_i hs
      rw [List.dropLast_eq_take]
      rw [List.take_append_eq_append_take]
      simp [List.take_take]
    · rfl
  · rfl

/-- The last entry of closeStreaming is the old last entry with a truthy
streaming flag cleared. -/
theorem closeStreaming_getLast? (l : List ChatMessage) :
    (closeStreaming l).getLast? =
      l.getLast?.map
        (fun mm => if truthyBool mm.isStreaming then { mm with isStreaming := some false }
                   else mm) := by
  unfold closeStreaming
  split
  · rename_i m heq
    rw [heq]
    split
    · rename_i hs
      simp [List.getLast?_concat, hs]
    · rename_i hs
      simp [hs]
      exact heq
  · rename_i heq
    rw [heq]
    rfl

/-- setStatusProcessing never changes which session ids occur in the list. -/
theorem any_setStatusProcessing (sid a : String) (l : List SessionInfo) :
    (setStatusProcessing sid l).any (fun x => x.session_id = a) =
      l.any (fun x => x.session_id = a) := by
  induction l with
  | nil => rfl
  | cons x rest ih =>
    by_cases h : x.session_id = sid
    · simp [setStatusProcessing, h]
    · simp only [setStatusProcessing, if_neg h, List.any_cons, ih]

/-- Removing the first session with id sid keeps any other session id present. -/
theorem any_eraseFirstSession (sid a : String) (hne : a ≠ sid) (l : List SessionInfo)
    (h : l.any (fun x => x.session_id = a) = true) :
    (eraseFirstSession sid l).any (fun x => x.session_id = a) = true := by
  induction l with
  | nil => simp at h
  | cons x rest ih =>
    simp only [List.any_cons, Bool.or_eq_true, decide_eq_true_eq] at h
    by_cases hx : x.session_id = sid
    · simp only [eraseFirstSession, if_pos hx]
      rcases h with h | h
      · exact absurd (h.symm.trans hx) hne
      · exact h
    · simp only [eraseFirstSession, if_neg hx, List.any_cons, Bool.or_eq_true,
        decide_eq_true_eq]
      rcases h with h | h
      · exact Or.inl h
      · exact Or.inr (ih h)

/-- removeSession preserves the active-session invariant. -/
theorem activeOk_removeSession (sid : String) (s : Store) (h : activeOk s = true) :
    activeOk (removeSession sid s) = true := by
  have hact : (removeSession sid s).activeSessionId =
      (if s.activeSessionId = some sid
       then ((eraseFirstSession sid s.sessions).head?).map (fun x => x.session_id)
       else s.activeSessionId) := rfl
  have hses : (removeSession sid s).sessions = eraseFirstSession sid s.sessions := rfl
  unfold activeOk at h ⊢
  rw [hact, hses]
  by_cases hA : s.activeSessionId = some sid
  · rw [if_pos hA]
    cases hE : eraseFirstSession sid s.sessions with
    | nil => simp
    | cons y rest => simp
  · rw [if_neg hA]
    cases hA2 : s.activeSessionId with
    | none => simp
    | some a =>
      rw [hA2] at h
      have hne2 : a ≠ sid := fun hh => hA (by rw [hA2, hh])
      exact any_eraseFirstSession sid a hne2 s.sessions h

/-- C4 counterexample: the state satisfies the invariant, yet a session_list
wholesale replacement that drops the active session leaves activeSessionId
pointing at a session no longer in the list. -/
theorem c4_counterexample_session_list :
    activeOk activeStore = true ∧
    activeOk (handleServerMessage (ServerMessage.session_list []) activeStore) = false := by
  decide

/-- C4 amended: the invariant that activeSessionId is null or names a listed
session is preserved by every server event except session_list, and by the
local removeSession intent; the session_list wholesale replacement (which
never adjusts activeSessionId) can break it. -/
theorem c4_active_session_invariant_amended (m : ServerMessage) (s : Store) (sid : String)
    (hm : isSessionListMsg m = false) (h : activeOk s = true) :
    activeOk (handleServerMessage m s) = true ∧ activeOk (removeSession sid s) = true := by
  refine ⟨?_, activeOk_removeSession sid s h⟩
  cases m with
  | session_created sid2 an mc =>
    have hact : (handleServerMessage (ServerMessage.session_created sid2 an mc)
        s).activeSessionId = some sid2 := rfl
    have hses : (handleServerMessage (ServerMessage.session_created sid2 an mc) s).sessions =
        s.sessions ++ [{ session_id := sid2, agent_name := an, status := "Ready",
                         model_config := normalizeModelConfig mc }] := rfl
    unfold activeOk
    rw [hact, hses]
    simp
  | prompt_accepted sid2 =>
    have hact : (handleServerMessage (ServerMessage.prompt_accepted sid2)
        s).activeSessionId = s.activeSessionId := rfl
    have hses : (handleServerMessage (ServerMessage.prompt_accepted sid2) s).sessions =
        setStatusProcessing sid2 s.sessions := rfl
    unfold activeOk at h ⊢
    rw [hact, hses]
    cases hA : s.activeSessionId with
    | none => simp
    | some a =>
      rw [hA] at h
      exact (any_setStatusProcessing sid2 a s.sessions).trans h
  | content_delta sid2 c =>
    show activeOk (handleServerMessage (ServerMessage.content_delta sid2 c) s) = true
    simp only [handleServerMessage]
    (repeat' split) <;> exact h
  | tool_call sid2 tn args =>
    show activeOk (handleServerMessage (ServerMessage.tool_call sid2 tn args) s) = true
    simp only [handleServerMessage]
    (repeat' split) <;> exact h
  | file_change sid2 p act fc fd =>
    show activeOk (handleServerMessage (ServerMessage.file_change sid2 p act fc fd) s) = true
    simp only [handleServerMessage]
    (repeat' split) <;> exact h
  | token_usage sid2 u => exact h
  | thinking sid2 c =>
    show activeOk (handleServerMessage (ServerMessage.thinking sid2 c) s) = true
    simp only [handleServerMessage]
    (repeat' split) <;> exact h
  | session_closed sid2 => exact activeOk_removeSession sid2 s h
  | agent_list agents => exact h
  | session_list sessions => simp [isSessionListMsg] at hm
  | error msg =>
    show activeOk (handleServerMessage (ServerMessage.error msg) s) = true
    simp only [handleServerMessage]
    (repeat' split) <;> exact h

/-- C4 witness: the amended preservation evaluated at a concrete event and
store. -/
theorem c4_active_session_invariant_amended_witness :
    activeOk (handleServerMessage (ServerMessage.prompt_accepted "s1") activeStore) = true ∧
    activeOk (removeSession "s1" activeStore) = true :=
  c4_active_session_invariant_amended (ServerMessage.prompt_accepted "s1") activeStore "s1"
    (by decide) (by decide)

/-- C5 counterexample: with a streaming last message, a file_change event
appends the file-change message but leaves the prior message's isStreaming
flag set to true — the streaming message is not terminated as claimed. -/
theorem c5_counterexample_file_change_keeps_streaming :
    (((recordGet (handleServerMessage
          (ServerMessage.file_change "s1" "a.txt" "write" none none)
          streamingStore).messages "s1").bind (fun l => l[1]?)).map
        (fun mm => mm.isStreaming) = some (some true)) ∧
    ¬ (((recordGet (handleServerMessage
          (ServerMessage.file_change "s1" "a.txt" "write" none none)
          streamingStore).messages "s1").bind (fun l => l[1]?)).map
        (fun mm => mm.isStreaming) = some (some false)) := by
  decide

/-- C5 amended: for a session with an existing message sequence, file_change
appends exactly one new assistant message carrying the file-change descriptor
and never coalesces with prior text; every prior message — including a
streaming last message and its isStreaming flag — is left unchanged. -/
theorem c5_amended_file_change_appends (s : Store) (sid p act : String)
    (fc fd : Option String) (l : List ChatMessage)
    (h : recordGet s.messages sid = some l) :
    ((recordGet (handleServerMessage (ServerMessage.file_change sid p act fc fd) s).messages
        sid).map List.length = some (l.length + 1)) ∧
    ((recordGet (handleServerMessage (ServerMessage.file_change sid p act fc fd) s).messages
        sid).map (List.take l.length) = some l) ∧
    (((recordGet (handleServerMessage (ServerMessage.file_change sid p act fc fd) s).messages
        sid).bind List.getLast?).map
        (fun mm => (mm.role, mm.content, mm.toolCall, mm.fileChange, mm.isStreaming)) =
      some (MessageRole.assistant, "", none,
            some { path := p, action := act, content := fc, diff := fd }, none)) := by
  have hmsg : recordGet (handleServerMessage (ServerMessage.file_change sid p act fc fd)
      s).messages sid =
      some (l ++ [{ id := nextMessageId s.now s.msgCounter, role := MessageRole.assistant,
                    content := "", timestamp := s.now, toolCall := none,
                    fileChange := some { path := p, action := act, content := fc, diff := fd },
                    thinking := none, tokenUsage := none, isStreaming := none }]) := by
    simp only [handleServerMessage, h]
    exact recordGet_recordSet_self _ _ _
  rw [hmsg]
  refine ⟨by simp, ?_, ?_⟩
  · simp [List.take_left]
  · simp [List.getLast?_concat]

/-- C5 witness: the amended file_change behavior evaluated on a concrete
store whose last message is streaming. -/
theorem c5_amended_file_change_appends_witness :
    ((recordGet (handleServerMessage (ServerMessage.file_change "s1" "a.txt" "write" none
        none) streamingStore).messages "s1").map List.length =
      some ([samplePlainMsg, sampleStreamingMsg].length + 1)) ∧
    ((recordGet (handleServerMessage (ServerMessage.file_change "s1" "a.txt" "write" none
        none) streamingStore).messages "s1").map
        (List.take [samplePlainMsg, sampleStreamingMsg].length) =
      some [samplePlainMsg, sampleStreamingMsg]) ∧
    (((recordGet (handleServerMessage (ServerMessage.file_change "s1" "a.txt" "write" none
        none) streamingStore).messages "s1").bind List.getLast?).map
        (fun mm => (mm.role, mm.content, mm.toolCall, mm.fileChange, mm.isStreaming)) =
      some (MessageRole.assistant, "", none,
            some { path := "a.txt", action := "write", content := none, diff := none },
            none)) :=
  c5_amended_file_change_appends streamingStore "s1" "a.txt" "write" none none
    [samplePlainMsg, sampleStreamingMsg] (by decide)

/-- C7 counterexample: setSessionModelConfig gives session s1 a concrete
normalized config, yet the agent's remembered default map stays empty. -/
theorem c7_counterexample_setSessionModelConfig :
    normalizeModelConfig (some sampleConfig) = some sampleConfig ∧
    ((recordGet (setSessionModelConfig "s1" (some sampleConfig)
        emptySeqStore).sessionMetadata "s1").map (fun md => md.modelConfig) =
      some (some sampleConfig)) ∧
    (setSessionModelConfig "s1" (some sampleConfig) emptySeqStore).agentModelConfigs = [] ∧
    recordGet (setSessionModelConfig "s1" (some sampleConfig)
        emptySeqStore).agentModelConfigs "agent-a" = none := by
  decide

/-- C7 amended: a config that normalizes to a concrete value becomes the
agent's remembered default at session creation (session_created), while an
explicit session-level update via setSessionModelConfig changes only the
session-level stores and leaves agentModelConfigs untouched (its caller
propagates to the agent default separately via setAgentModelConfig). -/
theorem c7_amended_config_propagation (s : Store) (sid an sid2 : String)
    (mc mc2 : Option ModelConfig) (c : ModelConfig)
    (h : normalizeModelConfig mc = some c) :
    recordGet (handleServerMessage (ServerMessage.session_created sid an mc)
        s).agentModelConfigs an = some c ∧
    (setSessionModelConfig sid2 mc2 s).agentModelConfigs = s.agentModelConfigs := by
  constructor
  · simp only [handleServerMessage, h]
    exact recordGet_recordSet_self _ _ _
  · rfl

/-- C7 witness: the amended propagation evaluated at a concrete creation
event and a concrete session-level update. -/
theorem c7_amended_config_propagation_witness :
    recordGet (handleServerMessage
        (ServerMessage.session_created "s9" "agent-b" (some sampleConfig))
        emptyStore).agentModelConfigs "agent-b" = some sampleConfig ∧
    (setSessionModelConfig "s1" (some sampleConfig) emptyStore).agentModelConfigs =
      emptyStore.agentModelConfigs :=
  c7_amended_config_propagation emptyStore "s9" "agent-b" "s1" (some sampleConfig)
    (some sampleConfig) sampleConfig (by decide)

/-- C1: the spec and every caller expect send to return a boolean that is true
exactly when the socket is open, but the hook's send returns undefined in
every state. In the OPEN state the frame is transmitted while the returned
value is still none (never true), so handleCreateSession misreads a
successful dispatch as a failure: it clears the pending flag and records the
disconnected error even though the command went out. -/
theorem c1_send_returns_no_boolean (m : ClientMessage) (s : Store)
    (agentId path : String) :
    (send (some ReadyState.OPEN) m).transmitted = true ∧
    (send (some ReadyState.OPEN) m).returned = none ∧
    (∀ socket, (send socket m).returned = none) ∧
    (handleCreateSession (some ReadyState.OPEN) agentId path s).2 = true ∧
    (handleCreateSession (some ReadyState.OPEN) agentId path s).1.creatingSessionAgentId =
      none ∧
    (handleCreateSession (some ReadyState.OPEN) agentId path s).1.lastError =
      some "WebSocket is disconnected. Reconnect and try again." := by
  refine ⟨rfl, rfl, ?_, rfl, rfl, rfl⟩
  intro socket
  unfold send
  split <;> rfl

/-- C6: the local removeSession intent produces exactly the same state as
handling a session_closed server event for the same session id. -/
theorem c6_removeSession_matches_session_closed (sid : String) (s : Store) :
    removeSession sid s = handleServerMessage (ServerMessage.session_closed sid) s := rfl

/-- C8: while a creation attempt is still pending (the flag holds a truthy
agent id, i.e. neither session_created nor error has cleared it), firing the
timeout records the local timeout error in the last-error slot and clears the
pending flag; a second firing is a no-op (so exactly one timeout error is
recorded), and a session_created event arriving after the timeout leaves the
pending flag null rather than resurrecting it. -/
theorem c8_creation_timeout (s : Store) (a sid an : String) (mc : Option ModelConfig)
    (h : s.creatingSessionAgentId = some a) (ha : a ≠ "") :
    (fireCreateTimeout s).lastError = some "Create session timed out. Please retry." ∧
    (fireCreateTimeout s).creatingSessionAgentId = none ∧
    fireCreateTimeout (fireCreateTimeout s) = fireCreateTimeout s ∧
    (handleServerMessage (ServerMessage.session_created sid an mc)
        (fireCreateTimeout s)).creatingSessionAgentId = none := by
  have ht : truthyStr s.creatingSessionAgentId = true := by
    rw [h]
    simp [truthyStr, ha]
  have hfs : fireCreateTimeout s =
      { s with creatingSessionAgentId := none,
               lastError := some "Create session timed out. Please retry." } := by
    unfold fireCreateTimeout
    rw [if_pos ht]
  refine ⟨?_, ?_, ?_, rfl⟩
  · rw [hfs]
  · rw [hfs]
  · rw [hfs]
    unfold fireCreateTimeout
    split
    · rename_i hcon
      simp [truthyStr] at hcon
    · rfl

/-- C8 witness: the timeout transition evaluated on a concrete pending store. -/
theorem c8_creation_timeout_witness :
    (fireCreateTimeout pendingStore).lastError =
      some "Create session timed out. Please retry." ∧
    (fireCreateTimeout pendingStore).creatingSessionAgentId = none ∧
    fireCreateTimeout (fireCreateTimeout pendingStore) = fireCreateTimeout pendingStore ∧
    (handleServerMessage (ServerMessage.session_created "s1" "agent-1" none)
        (fireCreateTimeout pendingStore)).creatingSessionAgentId = none :=
  c8_creation_timeout pendingStore "agent-1" "s1" "agent-1" none rfl (by decide)

/-- C9: a token_usage event for session sid updates only that session's
metadata slot, setting its tokenUsage and preserving its modelConfig; the
session list, message sequences, agent catalog, active session, pending flag,
last error, agent defaults, and every other session's metadata are unchanged,
and no chat message is created (the message map and id counter are both
untouched). -/
theorem c9_token_usage_frame (s : Store) (sid k : String) (u : TokenUsage)
    (hk : k ≠ sid) :
    (handleServerMessage (ServerMessage.token_usage sid u) s).sessions = s.sessions ∧
    (handleServerMessage (ServerMessage.token_usage sid u) s).messages = s.messages ∧
    (handleServerMessage (ServerMessage.token_usage sid u) s).agents = s.agents ∧
    (handleServerMessage (ServerMessage.token_usage sid u) s).activeSessionId =
      s.activeSessionId ∧
    (handleServerMessage (ServerMessage.token_usage sid u) s).creatingSessionAgentId =
      s.creatingSessionAgentId ∧
    (handleServerMessage (ServerMessage.token_usage sid u) s).lastError = s.lastError ∧
    (handleServerMessage (ServerMessage.token_usage sid u) s).agentModelConfigs =
      s.agentModelConfigs ∧
    (handleServerMessage (ServerMessage.token_usage sid u) s).connectionStatus =
      s.connectionStatus ∧
    (handleServerMessage (ServerMessage.token_usage sid u) s).projectPath =
      s.projectPath ∧
    (handleServerMessage (ServerMessage.token_usage sid u) s).msgCounter =
      s.msgCounter ∧
    ((recordGet (handleServerMessage (ServerMessage.token_usage sid u) s).sessionMetadata
        sid).map (fun md => md.tokenUsage) = some (some u)) ∧
    ((recordGet (handleServerMessage (ServerMessage.token_usage sid u) s).sessionMetadata
        sid).map (fun md => md.modelConfig) =
      some ((recordGet s.sessionMetadata sid).bind (fun md => md.modelConfig))) ∧
    recordGet (handleServerMessage (ServerMessage.token_usage sid u) s).sessionMetadata k =
      recordGet s.sessionMetadata k := by
  refine ⟨rfl, rfl, rfl, rfl, rfl, rfl, rfl, rfl, rfl, rfl, ?_, ?_, ?_⟩
  · simp only [handleServerMessage, recordGet_recordSet_self]
    rfl
  · simp only [handleServerMessage, recordGet_recordSet_self]
    cases hmd : recordGet s.sessionMetadata sid <;> simp [hmd]
  · simp only [handleServerMessage]
    exact recordGet_recordSet_ne s.sessionMetadata sid k _ hk

/-- C9 witness: the token_usage frame property on a concrete store. -/
theorem c9_token_usage_frame_witness :
    (handleServerMessage (ServerMessage.token_usage "s1" sampleUsage) activeStore).sessions =
      activeStore.sessions ∧
    (handleServerMessage (ServerMessage.token_usage "s1" sampleUsage) activeStore).messages =
      activeStore.messages ∧
    (handleServerMessage (ServerMessage.token_usage "s1" sampleUsage) activeStore).agents =
      activeStore.agents ∧
    (handleServerMessage (ServerMessage.token_usage "s1" sampleUsage)
        activeStore).activeSessionId = activeStore.activeSessionId ∧
    (handleServerMessage (ServerMessage.token_usage "s1" sampleUsage)
        activeStore).creatingSessionAgentId = activeStore.creatingSessionAgentId ∧
    (handleServerMessage (ServerMessage.token_usage "s1" sampleUsage) activeStore).lastError =
      activeStore.lastError ∧
    (handleServerMessage (ServerMessage.token_usage "s1" sampleUsage)
        activeStore).agentModelConfigs = activeStore.agentModelConfigs ∧
    (handleServerMessage (ServerMessage.token_usage "s1" sampleUsage)
        activeStore).connectionStatus = activeStore.connectionStatus ∧
    (handleServerMessage (ServerMessage.token_usage "s1" sampleUsage)
        activeStore).projectPath = activeStore.projectPath ∧
    (handleServerMessage (ServerMessage.token_usage "s1" sampleUsage)
        activeStore).msgCounter = activeStore.msgCounter ∧
    ((recordGet (handleServerMessage (ServerMessage.token_usage "s1" sampleUsage)
        activeStore).sessionMetadata "s1").map (fun md => md.tokenUsage) =
      some (some sampleUsage)) ∧
    ((recordGet (handleServerMessage (ServerMessage.token_usage "s1" sampleUsage)
        activeStore).sessionMetadata "s1").map (fun md => md.modelConfig) =
      some ((recordGet activeStore.sessionMetadata "s1").bind (fun md => md.modelConfig))) ∧
    recordGet (handleServerMessage (ServerMessage.token_usage "s1" sampleUsage)
        activeStore).sessionMetadata "s2" = recordGet activeStore.sessionMetadata "s2" :=
  c9_token_usage_frame activeStore "s1" "s2" sampleUsage (by decide)

/-- C10: a content_delta, tool_call, file_change, or thinking event whose
session id has no entry in the messages map leaves the entire store
unchanged: the event is silently dropped. -/
theorem c10_unknown_session_drops_event (s : Store) (sid c tn args p act : String)
    (fc fd : Option String) (h : recordGet s.messages sid = none) :
    handleServerMessage (ServerMessage.content_delta sid c) s = s ∧
    handleServerMessage (ServerMessage.tool_call sid tn args) s = s ∧
    handleServerMessage (ServerMessage.file_change sid p act fc fd) s = s ∧
    handleServerMessage (ServerMessage.thinking sid c) s = s := by
  refine ⟨?_, ?_, ?_, ?_⟩ <;> simp [handleServerMessage, h]

/-- C10 witness: the four stream events for an unknown session id evaluated
on a concrete store. -/
theorem c10_unknown_session_drops_event_witness :
    handleServerMessage (ServerMessage.content_delta "nope" "hi") emptySeqStore =
      emptySeqStore ∧
    handleServerMessage (ServerMessage.tool_call "nope" "grep" "{}") emptySeqStore =
      emptySeqStore ∧
    handleServerMessage
        (ServerMessage.file_change "nope" "a.txt" "write" none none) emptySeqStore =
      emptySeqStore ∧
    handleServerMessage (ServerMessage.thinking "nope" "hmm") emptySeqStore =
      emptySeqStore :=
  c10_unknown_session_drops_event emptySeqStore "nope" "hi" "grep" "{}" "a.txt" "write"
    none none (by decide)

/-- applyAll unfolds one step at a time. -/
theorem applyAll_cons (m : ServerMessage) (ms : List ServerMessage) (s : Store) :
    applyAll (m :: ms) s = applyAll ms (handleServerMessage m s) := rfl

/-- deltasForSession unfolds one payload at a time. -/
theorem deltasForSession_cons (sid c : String) (rest : List String) :
    deltasForSession sid (c :: rest) =
      ServerMessage.content_delta sid c :: deltasForSession sid rest := rfl

/-- A run of content deltas folded over a session whose sequence is a single
coalescible assistant message keeps exactly that one message, appending every
payload to its content and marking it streaming. -/
theorem deltas_fold_single (sid : String) (cs : List String) :
    ∀ (st : Store) (m : ChatMessage),
      recordGet st.messages sid = some [m] →
      m.role = MessageRole.assistant → m.toolCall = none → m.fileChange = none →
      recordGet (applyAll (deltasForSession sid cs) st).messages sid =
        some [{ m with
                content := m.content ++ concatAll cs,
                isStreaming := if cs = [] then m.isStreaming else some true }] := by
  induction cs with
  | nil =>
    intro st m h hr ht hf
    simp only [deltasForSession, List.map_nil, applyAll, List.foldl_nil, concatAll]
    rw [String.append_empty]
    exact h
  | cons c rest ih =>
    intro st m h hr ht hf
    have hstep : recordGet (handleServerMessage (ServerMessage.content_delta sid c)
        st).messages sid =
        some [{ m with content := m.content ++ c, isStreaming := some true }] := by
      simp only [handleServerMessage, h, List.getLast?_singleton]
      rw [if_pos ⟨hr, ht, hf⟩]
      exact recordGet_recordSet_self _ _ _
    have hres := ih (handleServerMessage (ServerMessage.content_delta sid c) st)
      { m with content := m.content ++ c, isStreaming := some true } hstep hr ht hf
    rw [deltasForSession_cons, applyAll_cons, hres]
    simp only [concatAll]
    rw [String.append_assoc]
    cases rest <;> simp

/-- C2: for a session whose message sequence exists and is initially empty,
any non-empty run of content_delta events with no intervening events yields
exactly one assistant message whose content is the concatenation of the delta
payloads in arrival order and whose isStreaming flag is true. -/
theorem c2_content_delta_coalescing (s : Store) (sid : String) (cs : List String)
    (h0 : recordGet s.messages sid = some []) (hne : cs ≠ []) :
    ((recordGet (applyAll (deltasForSession sid cs) s).messages sid).map List.length =
      some 1) ∧
    (((recordGet (applyAll (deltasForSession sid cs) s).messages sid).bind List.head?).map
        (fun mm => (mm.role, mm.content, mm.isStreaming)) =
      some (MessageRole.assistant, concatAll cs, some true)) := by
  cases cs with
  | nil => exact absurd rfl hne
  | cons c rest =>
    have hstep : recordGet (handleServerMessage (ServerMessage.content_delta sid c)
        s).messages sid =
        some [{ id := nextMessageId s.now s.msgCounter, role := MessageRole.assistant,
                content := c, timestamp := s.now, toolCall := none, fileChange := none,
                thinking := none, tokenUsage := none, isStreaming := some true }] := by
      simp only [handleServerMessage, h0, List.getLast?_nil, List.nil_append]
      exact recordGet_recordSet_self _ _ _
    have hres := deltas_fold_single sid rest
      (handleServerMessage (ServerMessage.content_delta sid c) s)
      { id := nextMessageId s.now s.msgCounter, role := MessageRole.assistant,
        content := c, timestamp := s.now, toolCall := none, fileChange := none,
        thinking := none, tokenUsage := none, isStreaming := some true }
      hstep rfl rfl rfl
    rw [deltasForSession_cons, applyAll_cons, hres]
    refine ⟨rfl, ?_⟩
    simp only [concatAll, Option.bind_some, List.head?_cons, Option.map_some]
    cases rest <;> simp

/-- C2 witness: two deltas on a fresh session produce one streaming assistant
message reading the full text. -/
theorem c2_content_delta_coalescing_witness :
    ((recordGet (applyAll (deltasForSession "s1" ["Hel", "lo"]) emptySeqStore).messages
        "s1").map List.length = some 1) ∧
    (((recordGet (applyAll (deltasForSession "s1" ["Hel", "lo"]) emptySeqStore).messages
        "s1").bind List.head?).map (fun mm => (mm.role, mm.content, mm.isStreaming)) =
      some (MessageRole.assistant, concatAll ["Hel", "lo"], some true)) :=
  c2_content_delta_coalescing emptySeqStore "s1" ["Hel", "lo"] (by decide) (by decide)

/-- C3: for a session whose message sequence exists, a tool_call event appends
exactly one new assistant message carrying the tool-call descriptor with
status running, leaves all earlier messages unchanged, and clears the last
message's truthy isStreaming flag while merging nothing into it (all its
other fields are preserved). -/
theorem c3_tool_call_boundary (s : Store) (sid tn args : String) (l : List ChatMessage)
    (h : recordGet s.messages sid = some l) :
    ((recordGet (handleServerMessage (ServerMessage.tool_call sid tn args) s).messages
        sid).map List.length = some (l.length + 1)) ∧
    (((recordGet (handleServerMessage (ServerMessage.tool_call sid tn args) s).messages
        sid).bind List.getLast?).map
        (fun mm => (mm.role, mm.content, mm.toolCall, mm.fileChange, mm.isStreaming)) =
      some (MessageRole.assistant, "",
            some { tool_name := tn, args := args, status := some "running", output := none },
            none, none)) ∧
    ((recordGet (handleServerMessage (ServerMessage.tool_call sid tn args) s).messages
        sid).map (List.take (l.length - 1)) = some (l.take (l.length - 1))) ∧
    ((recordGet (handleServerMessage (ServerMessage.tool_call sid tn args) s).messages
        sid).map (fun l2 => (l2.take l.length).getLast?) =
      some (l.getLast?.map (fun mm =>
        if truthyBool mm.isStreaming then { mm with isStreaming := some false }
        else mm))) := by
  have hmsg : recordGet (handleServerMessage (ServerMessage.tool_call sid tn args)
      s).messages sid =
      some (closeStreaming l ++
        [{ id := nextMessageId s.now s.msgCounter, role := MessageRole.assistant,
           content := "", timestamp := s.now,
           toolCall := some { tool_name := tn, args := args, status := some "running",
                              output := none },
           fileChange := none, thinking := none, tokenUsage := none,
           isStreaming := none }]) := by
    simp only [handleServerMessage, h]
    exact recordGet_recordSet_self _ _ _
  rw [hmsg]
  refine ⟨?_, ?_, ?_, ?_⟩
  · simp [closeStreaming_length]
  · simp [List.getLast?_concat]
  · simp only [Option.map_some', Option.some.injEq]
    rw [List.take_append_eq_append_take]
    have hz : l.length - 1 - (closeStreaming l).length = 0 := by
      rw [closeStreaming_length]
      omega
    rw [hz]
    simp [closeStreaming_take]
  · simp only [Option.map_some', Option.some.injEq]
    have htake : (closeStreaming l ++
        ([{ id := nextMessageId s.now s.msgCounter, role := MessageRole.assistant,
            content := "", timestamp := s.now,
            toolCall := some { tool_name := tn, args := args, status := some "running",
                               output := none },
            fileChange := none, thinking := none, tokenUsage := none,
            isStreaming := none }] : List ChatMessage)).take l.length = closeStreaming l := by
      conv_lhs => rw [← closeStreaming_length l]
      exact List.take_left _ _
    rw [htake, closeStreaming_getLast?]

/-- C3 witness: a tool_call on a session whose last message is streaming. -/
theorem c3_tool_call_boundary_witness :
    ((recordGet (handleServerMessage (ServerMessage.tool_call "s1" "grep" "{}")
        streamingStore).messages "s1").map List.length =
      some ([samplePlainMsg, sampleStreamingMsg].length + 1)) ∧
    (((recordGet (handleServerMessage (ServerMessage.tool_call "s1" "grep" "{}")
        streamingStore).messages "s1").bind List.getLast?).map
        (fun mm => (mm.role, mm.content, mm.toolCall, mm.fileChange, mm.isStreaming)) =
      some (MessageRole.assistant, "",
            some { tool_name := "grep", args := "{}", status := some "running",
                   output := none }, none, none)) ∧
    ((recordGet (handleServerMessage (ServerMessage.tool_call "s1" "grep" "{}")
        streamingStore).messages "s1").map
        (List.take ([samplePlainMsg, sampleStreamingMsg].length - 1)) =
      some ([samplePlainMsg, sampleStreamingMsg].take
        ([samplePlainMsg, sampleStreamingMsg].length - 1))) ∧
    ((recordGet (handleServerMessage (ServerMessage.tool_call "s1" "grep" "{}")
        streamingStore).messages "s1").map
        (fun l2 => (l2.take [samplePlainMsg, sampleStreamingMsg].length).getLast?) =
      some ([samplePlainMsg, sampleStreamingMsg].getLast?.map (fun mm =>
        if truthyBool mm.isStreaming then { mm with isStreaming := some false }
        else mm))) :=
  c3_tool_call_boundary streamingStore "s1" "grep" "{}"
    [samplePlainMsg, sampleStreamingMsg] (by decide)

end JisiCode
